import Mathlib

/-!
Verification development for the payment-voucher workflow application.

The definitions below are a shallow embedding of the TypeScript source:

* `ticketNumber`, `submitVoucher`, `addComment` embed the voucher-creator
  screen (functions `submitVoucher` and `addComment` acting on documents of
  the `vouchers` collection);
* `uploadPaidPDF`, `fetchVouchers` embed the publisher screen (acting on
  documents of the `receipts` collection);
* `signIn` and `authGateLogsOut` embed the sign-in gate of `AuthContext`
  and the routing check of `AuthLoadingScreen`;
* `updateUser` and `deleteCompany` embed the super-user screen.

Firestore `updateDoc` merges exactly the listed fields into the stored
document and is modelled by a Lean structure update; an aborted handler
(validation failure or a thrown upload error) leaves the stored document
unchanged, which is modelled by returning the input document unchanged
together with an error value.
-/

namespace Zoom

/-- JS `s.slice(-6)`: the last six characters of `s`, or all of `s` when it
is shorter than six characters. -/
def sliceLast6 (s : String) : String :=
  String.mk (s.data.drop (s.data.length - 6))

/-- Ticket-number generator from `submitVoucher` in the voucher-creator
screen: the JS template literal builds `VOC` followed by
`Date.now().toString().slice(-6)`, the last six decimal digits of the
millisecond clock.  `now` is the value of `Date.now()`. -/
def ticketNumber (now : Nat) : String :=
  "VOC" ++ sliceLast6 (toString now)

/-- JS `s.trim()`: the string with whitespace removed from both ends,
written over the character list so that it evaluates by reduction. -/
def jsTrim (s : String) : String :=
  String.mk (((s.data.dropWhile Char.isWhitespace).reverse.dropWhile
    Char.isWhitespace).reverse)

/-- One entry of the `comments` array, as built by `addComment`. -/
structure Comment where
  text : String
  createdAt : String
  createdBy : String
  createdByName : String
  role : String
  deriving DecidableEq, Repr

/-- A document of the `vouchers` collection, restricted to the fields the
voucher-creator screen reads or writes. -/
structure VDoc where
  status : String
  imageUrl : String
  receiptUrl : Option String
  voucherUrl : Option String
  description : String
  ticketNumber : Option String
  processedBy : Option String
  processedByName : Option String
  processedAt : Option String
  comments : List Comment
  deriving DecidableEq, Repr

/-- Failure outcomes of the embedded handlers: the local form-validation
errors set by `submitVoucher`, a thrown upload error caught by the
surrounding try block, and the empty-comment alert of `addComment`. -/
inductive VError where
  | validation (descriptionMissing fileMissing : Bool)
  | upload (msg : String)
  | emptyComment
  deriving DecidableEq, Repr

/-- The `voucherForm` state of the voucher-creator screen: a description
text and an optionally picked file (its uri). -/
structure VoucherForm where
  description : String
  voucherFile : Option String
  deriving DecidableEq, Repr

/-- Embedding of `submitVoucher` from the voucher-creator screen.

The handler first checks `voucherForm.description.trim()` and
`voucherForm.voucherFile` and returns after setting form errors when either
is missing, touching no stored document.  Otherwise it uploads the file and
asks for a download URL (`upload`, an `Except` since either step can
throw); a thrown error is caught and no document update happens.  On
success it computes the ticket number from `Date.now()` and performs a
single `updateDoc` writing `voucherUrl`, `status`, `processedBy`,
`processedByName`, `processedAt`, `description` and `ticketNumber`
together. -/
def submitVoucher (form : VoucherForm) (upload : Except String String)
    (now : Nat) (uid uname nowIso : String) (d : VDoc) :
    VDoc × Option VError :=
  if (jsTrim form.description == "") || form.voucherFile.isNone then
    (d, some (VError.validation (jsTrim form.description == "") form.voucherFile.isNone))
  else
    match upload with
    | Except.error e => (d, some (VError.upload e))
    | Except.ok url =>
        ({ d with
            voucherUrl := some url,
            status := "voucher_created",
            processedBy := some uid,
            processedByName := some uname,
            processedAt := some nowIso,
            description := form.description,
            ticketNumber := some (ticketNumber now) }, none)

/-- Embedding of `addComment` from the voucher-creator screen: an empty
(after trim) comment is rejected with an alert and nothing is written;
otherwise a single `updateDoc` replaces `comments` by the old array with
one new entry appended, touching no other field. -/
def addComment (text : String) (nowIso uid uname : String) (d : VDoc) :
    VDoc × Option VError :=
  if jsTrim text == "" then
    (d, some VError.emptyComment)
  else
    ({ d with
        comments := d.comments ++
          [{ text := text, createdAt := nowIso, createdBy := uid,
             createdByName := uname, role := "voucher" }] }, none)

/-- A document of the `receipts` collection, restricted to the fields the
publisher screen reads or writes.  `createdAt` is the submission time
stored when the record is created (the screen renders it as the Submitted
date); `statusChangedAt` is the timestamp of the last status change of the
record, the ordering key named by the specification — the publisher screen
itself never reads this field. -/
structure RDoc where
  id : String
  status : String
  createdAt : Nat
  statusChangedAt : Nat
  imageUrl : String
  paidPdfUrl : Option String
  publishedBy : Option String
  publishedAt : Option String
  deriving DecidableEq, Repr

/-- Embedding of `uploadPaidPDF` from the publisher screen.  A cancelled
picker (`picked = none`) returns before any store access.  Otherwise the
file is uploaded and a download URL requested (`upload`; a thrown error is
caught and nothing is written).  On success a single `updateDoc` writes
`paidPdfUrl`, `status`, `publishedBy` and `publishedAt` together. -/
def uploadPaidPDF (picked : Option String) (upload : Except String String)
    (publisher nowIso : String) (r : RDoc) : RDoc × Option VError :=
  match picked with
  | none => (r, none)
  | some _ =>
    match upload with
    | Except.error e => (r, some (VError.upload e))
    | Except.ok url =>
        ({ r with
            paidPdfUrl := some url,
            status := "payment_done",
            publishedBy := some publisher,
            publishedAt := some nowIso }, none)

/-- Ordering used by the publisher query `orderBy('createdAt', 'desc')`:
`a` precedes `b` when the `createdAt` of `a` is at least that of `b`. -/
def createdAtDesc (a b : RDoc) : Prop :=
  b.createdAt ≤ a.createdAt

instance : DecidableRel createdAtDesc :=
  fun a b => Nat.decLe b.createdAt a.createdAt

instance : IsTotal RDoc createdAtDesc :=
  ⟨fun a b => Nat.le_total b.createdAt a.createdAt⟩

instance : IsTrans RDoc createdAtDesc :=
  ⟨fun _ _ _ hab hbc => Nat.le_trans hbc hab⟩

/-- Embedding of `fetchVouchers` from the publisher screen: the Firestore
query keeps exactly the `receipts` documents with
`status == 'payment_initiated'` and returns them ordered by `createdAt`
descending. -/
def fetchVouchers (docs : List RDoc) : List RDoc :=
  List.insertionSort createdAtDesc
    (docs.filter (fun r => r.status == "payment_initiated"))

/-- The user profile stored in the `users` collection as read by
`AuthContext`.  In the source `pending` is an optional boolean and
`designation` an optional string; an absent `pending` is falsy like
`false`, while `designation` is falsy when absent or empty, which
`truthyStr` captures. -/
structure UserData where
  uid : String
  name : String
  email : String
  designation : Option String
  company : Option String
  bank : Option String
  pending : Bool
  approved : Bool
  deriving DecidableEq, Repr

/-- JS truthiness of an optional string: false for `undefined` and for the
empty string. -/
def truthyStr : Option String → Bool
  | none => false
  | some s => !(s == "")

/-- Embedding of `signIn` from `AuthContext`, starting after the password
check succeeded: `fetched` is the profile read from Firestore (`none` when
the read failed).  The result pairs the thrown-or-returned outcome with the
final signed-in state of the Firebase session: a missing profile throws but
does not sign out, a pending or designation-less profile is signed out and
then an error is thrown, and otherwise the profile is returned with the
session kept. -/
def signIn (fetched : Option UserData) : Except String UserData × Bool :=
  match fetched with
  | none => (Except.error "Failed to fetch user data after login", true)
  | some u =>
    if u.pending || !truthyStr u.designation then
      (Except.error "Account pending approval: wait for a SuperUser to assign a role", false)
    else
      (Except.ok u, true)

/-- Embedding of the gate in `AuthLoadingScreen`: the routing effect logs
the user out (and sends them to Login) exactly when the loaded profile has
`pending` truthy or no truthy `designation`. -/
def authGateLogsOut (u : UserData) : Bool :=
  u.pending || !truthyStr u.designation

/-- The `userForm` state of the super-user edit modal: a picked company
id, a picked role and a user type tab (company, finance or zoompay). -/
structure UserForm where
  company : String
  role : String
  userType : String
  deriving DecidableEq, Repr

/-- A document of the `users` collection as the super-user screen sees it. -/
structure UserDoc where
  id : String
  name : String
  email : String
  company : Option String
  bank : Option String
  designation : Option String
  pending : Bool
  approved : Bool
  updatedAt : Option String
  updatedBy : Option String
  deriving DecidableEq, Repr

/-- Embedding of `updateUser` from the super-user screen.  The handler
builds an `updates` object — company type with a chosen company sets
`company` and nulls `bank`; finance or zoompay type nulls both `company`
and `bank`; a truthy `role` sets `designation` and, with it, `pending` to
false and `approved` to true — and applies it in a single `updateDoc`
together with `updatedAt` and `updatedBy`.  JS truthiness of the form
strings is non-emptiness. -/
def updateUser (form : UserForm) (nowIso actor : String) (u : UserDoc) : UserDoc :=
  let u1 :=
    if form.userType == "company" && !(form.company == "") then
      { u with company := some form.company, bank := none }
    else if form.userType == "finance" || form.userType == "zoompay" then
      { u with company := none, bank := none }
    else u
  let u2 :=
    if !(form.role == "") then
      { u1 with designation := some form.role, pending := false, approved := true }
    else u1
  { u2 with updatedAt := some nowIso, updatedBy := some actor }

/-- A user profile restricted to what `deleteCompany` touches. -/
structure SUser where
  id : String
  company : Option String
  deriving DecidableEq, Repr

/-- The slice of the Firestore state `deleteCompany` acts on: the ids of
the existing `companies` documents and the `users` documents. -/
structure AdminState where
  companies : List String
  users : List SUser
  deriving DecidableEq, Repr

/-- Embedding of the confirmed branch of `deleteCompany` from the
super-user screen: `deleteDoc` removes the company document with id `cid`,
then a batch sets `company` to null on every user whose `company` equals
`cid`, committed together. -/
def deleteCompany (cid : String) (st : AdminState) : AdminState :=
  { companies := st.companies.filter (fun c => c != cid),
    users := st.users.map (fun u =>
      if u.company = some cid then { u with company := none } else u) }

/-! Concrete documents used by counterexamples and witnesses. -/

/-- A voucher document in status `approved`, as the voucher creator sees it. -/
def apprDoc : VDoc :=
  { status := "approved", imageUrl := "https://img/receipt.png",
    receiptUrl := some "https://img/receipt.png", voucherUrl := none,
    description := "", ticketNumber := none, processedBy := none,
    processedByName := none, processedAt := none, comments := [] }

/-- A receipt document in status `payment_initiated`, as the publisher sees it. -/
def initDoc : RDoc :=
  { id := "r1", status := "payment_initiated", createdAt := 100,
    statusChangedAt := 200, imageUrl := "https://img/r1.png",
    paidPdfUrl := none, publishedBy := none, publishedAt := none }

/-- C1: the ticket-number generator is the string `VOC` followed by the last
six decimal digits of `Date.now()`; two createVoucher calls whose clock
values agree modulo one million milliseconds (about 16.7 minutes apart, or
any two calls within the same millisecond) receive the same ticketNumber,
so the generator is not collision-free, contradicting the claimed
monotonic-counter-plus-high-resolution-timestamp generator. -/
theorem C1_ticketNumber_collision :
    ticketNumber 1700000000000 = ticketNumber 1700001000000 ∧
    (1700000000000 : Nat) ≠ 1700001000000 := by
  constructor
  · decide
  · decide

/-- C2: a status that requires an attachment is never reached without the
attachment already stored.  For `submitVoucher`: when the result status has
become `voucher_created`, the upload succeeded with some URL and that URL
is recorded as `voucherUrl` in the very same written document; when the
upload fails the document is returned unchanged.  The same holds for
`uploadPaidPDF` with `payment_done` and `paidPdfUrl`. -/
theorem C2_attachment_gated_transitions
    (form : VoucherForm) (up1 : Except String String) (now : Nat)
    (uid uname nowIso : String) (d : VDoc)
    (picked : Option String) (up2 : Except String String)
    (publisher pIso : String) (r : RDoc) :
    (d.status ≠ "voucher_created" →
      (submitVoucher form up1 now uid uname nowIso d).1.status = "voucher_created" →
      ∃ url, up1 = Except.ok url ∧
        (submitVoucher form up1 now uid uname nowIso d).1.voucherUrl = some url) ∧
    (∀ e, up1 = Except.error e →
      (submitVoucher form up1 now uid uname nowIso d).1 = d) ∧
    (r.status ≠ "payment_done" →
      (uploadPaidPDF picked up2 publisher pIso r).1.status = "payment_done" →
      ∃ url, up2 = Except.ok url ∧
        (uploadPaidPDF picked up2 publisher pIso r).1.paidPdfUrl = some url) ∧
    (∀ e, up2 = Except.error e →
      (uploadPaidPDF picked up2 publisher pIso r).1 = r) := by
  refine ⟨?_, ?_, ?_, ?_⟩
  · intro hne hst
    unfold submitVoucher at hst ⊢
    cases hb : ((jsTrim form.description == "") || form.voucherFile.isNone) with
    | true => simp [hb] at hst; exact absurd hst hne
    | false =>
      cases up1 with
      | error e => simp [hb] at hst; exact absurd hst hne
      | ok url =>
        refine ⟨url, rfl, ?_⟩
        simp [hb]
  · intro e he
    subst he
    unfold submitVoucher
    cases hb : ((jsTrim form.description == "") || form.voucherFile.isNone) <;>
      simp [hb]
  · intro hne hst
    cases picked with
    | none => exact absurd hst hne
    | some p =>
      cases up2 with
      | error e => exact absurd hst hne
      | ok url => exact ⟨url, rfl, rfl⟩
  · intro e he
    subst he
    cases picked with
    | none => rfl
    | some p => rfl

/-- Witness for C2 at concrete inputs: with the approved document, a valid
form and a successful upload of URL `https://v.pdf`, the written document
carries that URL; the hypotheses are discharged by evaluation. -/
theorem C2_attachment_gated_transitions_witness :
    ∃ url, (Except.ok "https://v.pdf" : Except String String) = Except.ok url ∧
      (submitVoucher ⟨"May invoice", some "file://a.pdf"⟩ (Except.ok "https://v.pdf")
        1700000000001 "uidA" "Alice" "isoA" apprDoc).1.voucherUrl = some url :=
  (C2_attachment_gated_transitions ⟨"May invoice", some "file://a.pdf"⟩
      (Except.ok "https://v.pdf") 1700000000001 "uidA" "Alice" "isoA" apprDoc
      (some "p") (Except.ok "https://q.pdf") "pub" "isoP" initDoc).1
    (by decide) (by decide)

/-- First of two racing createVoucher calls on the same approved document. -/
def c3Step1 : VDoc × Option VError :=
  submitVoucher ⟨"May invoice", some "file://a.pdf"⟩ (Except.ok "https://uA.pdf")
    1700000000001 "uidA" "Alice" "isoA" apprDoc

/-- Second racing createVoucher call, applied to the state the first one
wrote (one serialization of the concurrent race). -/
def c3Step2 : VDoc × Option VError :=
  submitVoucher ⟨"Race duplicate", some "file://b.pdf"⟩ (Except.ok "https://uB.pdf")
    1700000000002 "uidB" "Bob" "isoB" c3Step1.1

/-- C3 counterexample: two transition attempts race on the same record and
BOTH succeed — no attempt receives any conflict signal (there is no version
field and no compare-and-set in the code, only an unconditional updateDoc)
and the later write silently overwrites the processedBy, voucherUrl and
ticketNumber the first writer stored. -/
theorem C3_counterexample :
    c3Step1.2 = none ∧ c3Step2.2 = none ∧
    c3Step1.1.processedBy = some "uidA" ∧
    c3Step2.1.processedBy = some "uidB" ∧
    c3Step2.1.ticketNumber ≠ c3Step1.1.ticketNumber := by
  decide

/-- C3 amended: transitions are not arbitrated.  Any two createVoucher
attempts with valid forms and successful uploads, serialized in either
order on the same record, both report success, and the final document holds
the second writer's processedBy, voucherUrl and ticketNumber — last writer
wins, with no ConflictError delivered to either caller. -/
theorem C3_last_writer_wins (f g : VoucherForm) (u1 u2 : String) (t1 t2 : Nat)
    (ua na ia ub nb ib : String) (d : VDoc)
    (hf1 : (jsTrim f.description == "") = false) (hf2 : f.voucherFile.isNone = false)
    (hg1 : (jsTrim g.description == "") = false) (hg2 : g.voucherFile.isNone = false) :
    (submitVoucher f (Except.ok u1) t1 ua na ia d).2 = none ∧
    (submitVoucher g (Except.ok u2) t2 ub nb ib
        (submitVoucher f (Except.ok u1) t1 ua na ia d).1).2 = none ∧
    (submitVoucher g (Except.ok u2) t2 ub nb ib
        (submitVoucher f (Except.ok u1) t1 ua na ia d).1).1.processedBy = some ub ∧
    (submitVoucher g (Except.ok u2) t2 ub nb ib
        (submitVoucher f (Except.ok u1) t1 ua na ia d).1).1.voucherUrl = some u2 ∧
    (submitVoucher g (Except.ok u2) t2 ub nb ib
        (submitVoucher f (Except.ok u1) t1 ua na ia d).1).1.ticketNumber =
      some (ticketNumber t2) := by
  simp [submitVoucher, hf1, hf2, hg1, hg2]

/-- Witness for the amended C3 at concrete inputs. -/
theorem C3_last_writer_wins_witness :
    (submitVoucher ⟨"First", some "f1"⟩ (Except.ok "u1") 1 "a" "A" "i1" apprDoc).2 = none ∧
    (submitVoucher ⟨"Second", some "f2"⟩ (Except.ok "u2") 2 "b" "B" "i2"
        (submitVoucher ⟨"First", some "f1"⟩ (Except.ok "u1") 1 "a" "A" "i1" apprDoc).1).2 = none ∧
    (submitVoucher ⟨"Second", some "f2"⟩ (Except.ok "u2") 2 "b" "B" "i2"
        (submitVoucher ⟨"First", some "f1"⟩ (Except.ok "u1") 1 "a" "A" "i1" apprDoc).1).1.processedBy = some "b" ∧
    (submitVoucher ⟨"Second", some "f2"⟩ (Except.ok "u2") 2 "b" "B" "i2"
        (submitVoucher ⟨"First", some "f1"⟩ (Except.ok "u1") 1 "a" "A" "i1" apprDoc).1).1.voucherUrl = some "u2" ∧
    (submitVoucher ⟨"Second", some "f2"⟩ (Except.ok "u2") 2 "b" "B" "i2"
        (submitVoucher ⟨"First", some "f1"⟩ (Except.ok "u1") 1 "a" "A" "i1" apprDoc).1).1.ticketNumber =
      some (ticketNumber 2) :=
  C3_last_writer_wins ⟨"First", some "f1"⟩ ⟨"Second", some "f2"⟩ "u1" "u2" 1 2
    "a" "A" "i1" "b" "B" "i2" apprDoc (by decide) (by decide) (by decide) (by decide)

/-- C4: createVoucher without a voucher attachment fails with the
validation error and returns the stored document entirely unchanged. -/
theorem C4_missing_attachment_validation
    (form : VoucherForm) (upload : Except String String) (now : Nat)
    (uid uname nowIso : String) (d : VDoc)
    (h : form.voucherFile = none) :
    submitVoucher form upload now uid uname nowIso d =
      (d, some (VError.validation (jsTrim form.description == "") true)) := by
  simp [submitVoucher, h]

/-- Witness for C4 at concrete inputs: a form with a description but no
picked file leaves the approved document untouched and reports the
missing-file validation error. -/
theorem C4_missing_attachment_validation_witness :
    submitVoucher ⟨"May invoice", none⟩ (Except.ok "https://v.pdf")
        1700000000001 "uidA" "Alice" "isoA" apprDoc =
      (apprDoc, some (VError.validation false true)) := by
  have h := C4_missing_attachment_validation ⟨"May invoice", none⟩
    (Except.ok "https://v.pdf") 1700000000001 "uidA" "Alice" "isoA" apprDoc rfl
  have e : (jsTrim "May invoice" == "") = false := by decide
  rw [e] at h
  exact h

/-- A payment-initiated receipt submitted early whose status changed late. -/
def pubA : RDoc :=
  { id := "a", status := "payment_initiated", createdAt := 1, statusChangedAt := 10,
    imageUrl := "https://img/a.png", paidPdfUrl := none,
    publishedBy := none, publishedAt := none }

/-- A payment-initiated receipt submitted later whose status changed earlier. -/
def pubB : RDoc :=
  { id := "b", status := "payment_initiated", createdAt := 2, statusChangedAt := 5,
    imageUrl := "https://img/b.png", paidPdfUrl := none,
    publishedBy := none, publishedAt := none }

/-- C5 counterexample: the publisher query orders by `createdAt`, the
submission time, not by the last-status-change timestamp.  With record `a`
submitted first (createdAt 1) but status-changed last (statusChangedAt 10)
and record `b` submitted later (createdAt 2) but status-changed earlier
(statusChangedAt 5), the code returns `b` before `a`, while
reverse-chronological order by last status change puts `a` first. -/
theorem C5_counterexample :
    fetchVouchers [pubA, pubB] = [pubB, pubA] ∧
    pubB.statusChangedAt < pubA.statusChangedAt ∧
    ¬ List.Sorted (fun x y : RDoc => y.statusChangedAt ≤ x.statusChangedAt)
        (fetchVouchers [pubA, pubB]) := by
  refine ⟨by decide, by decide, ?_⟩
  intro hs
  rw [show fetchVouchers [pubA, pubB] = [pubB, pubA] from by decide] at hs
  have h := List.rel_of_sorted_cons hs pubA (List.mem_cons_self pubA [])
  exact absurd h (by decide)

/-- C5 amended: `fetchVouchers` returns exactly the records whose status is
`payment_initiated`, ordered reverse-chronologically by the `createdAt`
submission timestamp (not by last status change); as a pure function of
the backing data, repeated calls return the identical ordering. -/
theorem C5_publisher_view (docs : List RDoc) :
    (∀ r : RDoc, r ∈ fetchVouchers docs ↔
      r ∈ docs ∧ r.status = "payment_initiated") ∧
    List.Sorted createdAtDesc (fetchVouchers docs) := by
  constructor
  · intro r
    unfold fetchVouchers
    rw [List.mem_insertionSort, List.mem_filter]
    simp
  · exact List.sorted_insertionSort createdAtDesc _

/-- Witness for the amended C5 at concrete input: record `a` is in the
publisher view of the two concrete records, by the membership direction of
the theorem. -/
theorem C5_publisher_view_witness :
    pubA ∈ fetchVouchers [pubA, pubB] :=
  ((C5_publisher_view [pubA, pubB]).1 pubA).mpr ⟨by decide, by decide⟩

/-- First createVoucher call of a client retry pair: same caller, same
form, same file, same record. -/
def c6Step1 : VDoc × Option VError :=
  submitVoucher ⟨"Invoice", some "file://a.pdf"⟩ (Except.ok "https://u.pdf")
    1700000000001 "uid" "Name" "iso1" apprDoc

/-- Retried createVoucher call, identical except for the clock, applied to
the state written by the first call. -/
def c6Step2 : VDoc × Option VError :=
  submitVoucher ⟨"Invoice", some "file://a.pdf"⟩ (Except.ok "https://u.pdf")
    1700000000002 "uid" "Name" "iso2" c6Step1.1

/-- C6 counterexample: the operations take no idempotency token and a
retried call is not a no-op returning the first result: the second,
identical createVoucher call is applied again, and the resulting document
differs from the first result — in particular it carries a different
ticketNumber, so the transition was applied twice. -/
theorem C6_counterexample :
    c6Step1.2 = none ∧ c6Step2.2 = none ∧
    c6Step2.1 ≠ c6Step1.1 ∧
    c6Step2.1.ticketNumber ≠ c6Step1.1.ticketNumber := by
  decide

/-- C6 amended: no operation takes an idempotency token and no retry is
detected: every createVoucher call with a valid form and successful upload
reports success and unconditionally restamps the document, writing a
ticketNumber and processedAt derived from the current call regardless of
any earlier application recorded in the document. -/
theorem C6_no_idempotency_token (form : VoucherForm) (url : String) (t : Nat)
    (uid uname nowIso : String) (d : VDoc)
    (h1 : (jsTrim form.description == "") = false)
    (h2 : form.voucherFile.isNone = false) :
    (submitVoucher form (Except.ok url) t uid uname nowIso d).2 = none ∧
    (submitVoucher form (Except.ok url) t uid uname nowIso d).1.ticketNumber =
      some (ticketNumber t) ∧
    (submitVoucher form (Except.ok url) t uid uname nowIso d).1.processedAt =
      some nowIso := by
  simp [submitVoucher, h1, h2]

/-- Witness for the amended C6 at concrete inputs. -/
theorem C6_no_idempotency_token_witness :
    (submitVoucher ⟨"Invoice", some "f"⟩ (Except.ok "u") 7 "uid" "N" "iso" apprDoc).2 = none ∧
    (submitVoucher ⟨"Invoice", some "f"⟩ (Except.ok "u") 7 "uid" "N" "iso" apprDoc).1.ticketNumber =
      some (ticketNumber 7) ∧
    (submitVoucher ⟨"Invoice", some "f"⟩ (Except.ok "u") 7 "uid" "N" "iso" apprDoc).1.processedAt =
      some "iso" :=
  C6_no_idempotency_token ⟨"Invoice", some "f"⟩ "u" 7 "uid" "N" "iso" apprDoc
    (by decide) (by decide)

/-- C7: on any record, `addComment` with a nonempty comment appends exactly
one entry to the comments array and alters neither the status nor any
attachment reference (receipt image, receipt URL, voucher URL) nor the
ticketNumber, and every previously recorded entry is preserved unedited. -/
theorem C7_addComment_frame (text nowIso uid uname : String) (d : VDoc)
    (h : (jsTrim text == "") = false) :
    (addComment text nowIso uid uname d).1.status = d.status ∧
    (addComment text nowIso uid uname d).1.imageUrl = d.imageUrl ∧
    (addComment text nowIso uid uname d).1.receiptUrl = d.receiptUrl ∧
    (addComment text nowIso uid uname d).1.voucherUrl = d.voucherUrl ∧
    (addComment text nowIso uid uname d).1.ticketNumber = d.ticketNumber ∧
    (addComment text nowIso uid uname d).1.comments =
      d.comments ++ [Comment.mk text nowIso uid uname "voucher"] ∧
    (addComment text nowIso uid uname d).1.comments.length =
      d.comments.length + 1 ∧
    (addComment text nowIso uid uname d).1.comments.take d.comments.length =
      d.comments := by
  unfold addComment
  simp [h, List.take_left]

/-- Witness for C7 at concrete input: adding a comment to the approved
document keeps its status and appends the entry. -/
theorem C7_addComment_frame_witness :
    (addComment "looks fine" "iso" "uid" "N" apprDoc).1.status = apprDoc.status ∧
    (addComment "looks fine" "iso" "uid" "N" apprDoc).1.comments =
      apprDoc.comments ++ [Comment.mk "looks fine" "iso" "uid" "N" "voucher"] := by
  have h := C7_addComment_frame "looks fine" "iso" "uid" "N" apprDoc (by decide)
  exact ⟨h.1, h.2.2.2.2.2.1⟩

/-- C8: the sign-in gate.  With a fetched profile, `signIn` returns the
profile successfully exactly when the profile is not pending and has a
truthy designation; when the profile is pending or lacks a designation the
call signs the user out (second component false) and throws the
pending-approval error; and the routing screen logs a user out for exactly
the profiles `signIn` rejects, so both enforce the same gate. -/
theorem C8_signin_requires_role (u : UserData) :
    ((signIn (some u)).1 = Except.ok u ↔
      (u.pending = false ∧ truthyStr u.designation = true)) ∧
    (authGateLogsOut u = true →
      signIn (some u) =
        (Except.error "Account pending approval: wait for a SuperUser to assign a role",
          false)) ∧
    (authGateLogsOut u = false ↔ (signIn (some u)).1 = Except.ok u) := by
  unfold signIn authGateLogsOut
  cases hp : u.pending <;> cases ht : truthyStr u.designation <;> simp [hp, ht]

/-- Witness for C8 at concrete profiles: a pending finance user is signed
out with an error, and a non-pending finance user signs in successfully. -/
theorem C8_signin_requires_role_witness :
    signIn (some (UserData.mk "u1" "P" "p@x" (some "finance") none none true false)) =
      (Except.error "Account pending approval: wait for a SuperUser to assign a role",
        false) ∧
    (signIn (some (UserData.mk "u2" "Q" "q@x" (some "finance") none none false true))).1 =
      Except.ok (UserData.mk "u2" "Q" "q@x" (some "finance") none none false true) := by
  constructor
  · exact (C8_signin_requires_role
      (UserData.mk "u1" "P" "p@x" (some "finance") none none true false)).2.1 (by decide)
  · exact ((C8_signin_requires_role
      (UserData.mk "u2" "Q" "q@x" (some "finance") none none false true)).2.2).mp (by decide)

/-- C9: whenever the super-user updateUser assigns a non-empty role, the
same single update sets the designation to that role, pending to false and
approved to true; and selecting the finance or zoompay user type clears
both the company and the bank reference in that update. -/
theorem C9_updateUser_role_approves (form : UserForm) (nowIso actor : String)
    (u : UserDoc) :
    (form.role ≠ "" →
      (updateUser form nowIso actor u).designation = some form.role ∧
      (updateUser form nowIso actor u).pending = false ∧
      (updateUser form nowIso actor u).approved = true) ∧
    ((form.userType = "finance" ∨ form.userType = "zoompay") →
      (updateUser form nowIso actor u).company = none ∧
      (updateUser form nowIso actor u).bank = none) := by
  constructor
  · intro hr
    have hb : (form.role == "") = false := by
      cases hbe : (form.role == "") with
      | true => exact absurd (by simpa using hbe) hr
      | false => rfl
    unfold updateUser
    rw [hb]
    simp
  · intro ht
    have hb : (form.userType == "company") = false := by
      rcases ht with h | h <;> simp [h]
    have hf : ((form.userType == "finance") || (form.userType == "zoompay")) = true := by
      rcases ht with h | h <;> simp [h]
    unfold updateUser
    rw [hb]
    simp only [Bool.false_and, if_false, hf, if_true]
    split <;> simp

/-- Witness for C9 at concrete input: giving a pending finance user the
finance role marks them approved, not pending, and clears company and
bank. -/
theorem C9_updateUser_role_approves_witness :
    (updateUser (UserForm.mk "" "finance" "finance") "iso" "super"
        (UserDoc.mk "u1" "P" "p@x" (some "c1") (some "b1") none true false none none)).designation =
      some "finance" ∧
    (updateUser (UserForm.mk "" "finance" "finance") "iso" "super"
        (UserDoc.mk "u1" "P" "p@x" (some "c1") (some "b1") none true false none none)).pending =
      false ∧
    (updateUser (UserForm.mk "" "finance" "finance") "iso" "super"
        (UserDoc.mk "u1" "P" "p@x" (some "c1") (some "b1") none true false none none)).approved =
      true ∧
    (updateUser (UserForm.mk "" "finance" "finance") "iso" "super"
        (UserDoc.mk "u1" "P" "p@x" (some "c1") (some "b1") none true false none none)).company =
      none ∧
    (updateUser (UserForm.mk "" "finance" "finance") "iso" "super"
        (UserDoc.mk "u1" "P" "p@x" (some "c1") (some "b1") none true false none none)).bank =
      none := by
  have h := C9_updateUser_role_approves (UserForm.mk "" "finance" "finance") "iso" "super"
    (UserDoc.mk "u1" "P" "p@x" (some "c1") (some "b1") none true false none none)
  have h1 := h.1 (by decide)
  have h2 := h.2 (Or.inl rfl)
  exact ⟨h1.1, h1.2.1, h1.2.2, h2.1, h2.2⟩

/-- C10: deleteCompany removes the company document and nulls the company
field of every user that referenced it, so no user still references the
deleted id; and if every company reference was valid before, every company
reference is still valid (refers to an existing company) afterwards. -/
theorem C10_deleteCompany_no_dangling (cid : String) (st : AdminState) :
    (∀ u ∈ (deleteCompany cid st).users, u.company ≠ some cid) ∧
    cid ∉ (deleteCompany cid st).companies ∧
    ((∀ u ∈ st.users, ∀ c : String, u.company = some c → c ∈ st.companies) →
      ∀ u ∈ (deleteCompany cid st).users, ∀ c : String,
        u.company = some c → c ∈ (deleteCompany cid st).companies) := by
  refine ⟨?_, ?_, ?_⟩
  · intro u hu
    unfold deleteCompany at hu
    simp only [List.mem_map] at hu
    obtain ⟨v, hv, rfl⟩ := hu
    by_cases hvc : v.company = some cid
    · simp [hvc]
    · simp [hvc]
  · unfold deleteCompany
    simp [List.mem_filter]
  · intro hinv u hu c hc
    unfold deleteCompany at hu ⊢
    simp only [List.mem_map] at hu
    obtain ⟨v, hv, rfl⟩ := hu
    by_cases hvc : v.company = some cid
    · simp [hvc] at hc
    · simp only [hvc, if_false, if_neg hvc] at hc
      have hcm := hinv v hv c hc
      have hne : c ≠ cid := fun he => hvc (he ▸ hc)
      simp [List.mem_filter, hcm, hne]

/-- Witness for C10 at concrete input: deleting company `c1` from a state
where one user references `c1` and another references `c2` leaves no
reference to a missing company. -/
theorem C10_deleteCompany_no_dangling_witness :
    ∀ u ∈ (deleteCompany "c1"
        (AdminState.mk ["c1", "c2"]
          [SUser.mk "u1" (some "c1"), SUser.mk "u2" (some "c2")])).users,
      ∀ c : String, u.company = some c →
        c ∈ (deleteCompany "c1"
          (AdminState.mk ["c1", "c2"]
            [SUser.mk "u1" (some "c1"), SUser.mk "u2" (some "c2")])).companies :=
  (C10_deleteCompany_no_dangling "c1"
      (AdminState.mk ["c1", "c2"]
        [SUser.mk "u1" (some "c1"), SUser.mk "u2" (some "c2")])).2.2
    (by decide)

end Zoom
